import Mathlib

/-!
Verification development for the libression media organiser.

The definitions below are shallow embeddings of the code paths that carry
the system's invariants: the nginx signed-capability read layer
(sample_deployment/nginx_docker.conf and mac_nginx.conf), the client-side
address translator (frontend/app/config/api.ts, transformWebDAVUrl), the
gallery reconcilers (static/gallery.js and frontend Gallery.tsx), the
action coordinator (frontend ActionBar handleAction) and the capability
URL helpers (frontend/app/services/api.ts).
-/

namespace Libression

/-! ## Signed-capability read layer (nginx readonly locations) -/

/-- Abstract keyed digest. The deployment uses MD5 via the nginx
secure_link module; the digest algorithm itself is outside this
repository, so the verifier below is parametric in it. -/
abbrev Mac := String → String

/-- Message digested by the verifier, from nginx_docker.conf line 54:
secure_link_md5 is computed over "$arg_expires$uri libression_secret_key",
i.e. the expiry string, then the resource path, then a space and the
shared secret literal. -/
def secureLinkMessage (expires : Nat) (uri : String) : String :=
  toString expires ++ uri ++ " libression_secret_key"

/-- Modelled from the spec: the nginx secure_link module that computes the
variable consumed by the conf is not part of this repository. Per spec
section 4.1 and 6, the variable is empty when the presented signature does
not equal the digest of the message, the string "0" when the signature
matches but now is at or past the expiry, and a truthy value otherwise. -/
def secureLinkVar (mac : Mac) (sig : String) (expires now : Nat)
    (uri : String) : String :=
  if sig = mac (secureLinkMessage expires uri) then
    if expires ≤ now then "0" else "1"
  else ""

/-- HTTP methods seen at the proxy boundary. -/
inductive HttpMethod
  | get
  | head
  | put
  | delete
  | mkcol
  | copy
  | move
  | propfind
  | options
  | other (verb : String)
  deriving DecidableEq

/-- Outcome of a request to a capability-protected readonly location. -/
inductive ReadonlyResult
  | forbidden
  | gone
  | methodDenied
  | served
  deriving DecidableEq

/-- HTTP status attached to each readonly outcome: the two explicit
returns in the conf (403, 410), the access-phase denial (403), and
serving the resource (200). -/
def statusCode : ReadonlyResult → Nat
  | .forbidden => 403
  | .gone => 410
  | .methodDenied => 403
  | .served => 200

/-- Readonly location of nginx_docker.conf (lines 48 to 70): the two
rewrite-phase checks run first, in conf order — an empty secure_link
variable returns 403, the value "0" returns 410 — and only then does the
access phase apply limit_except GET HEAD, denying every other method. -/
def readonlyLocationDocker (mac : Mac) (method : HttpMethod) (sig : String)
    (expires now : Nat) (uri : String) : ReadonlyResult :=
  let v := secureLinkVar mac sig expires now uri
  if v = "" then .forbidden
  else if v = "0" then .gone
  else
    match method with
    | .get => .served
    | .head => .served
    | _ => .methodDenied

/-- Readonly location of mac_nginx.conf (lines 63 to 79): no secure_link
there, but limit_except GET denies every method other than GET. -/
def readonlyLocationMac (method : HttpMethod) : ReadonlyResult :=
  match method with
  | .get => .served
  | _ => .methodDenied

/-! ## Address translation (transformWebDAVUrl) -/

/-- Port-stripping step of transformWebDAVUrl: the JS regex replace with
pattern colon, one or more digits, lookahead slash, removes the leftmost
colon-digits run that is immediately followed by a path separator. -/
def stripPortChars : List Char → List Char
  | [] => []
  | c :: rest =>
    if c = ':' then
      if rest.takeWhile Char.isDigit ≠ [] ∧
          (rest.dropWhile Char.isDigit).head? = some '/' then
        rest.dropWhile Char.isDigit
      else c :: stripPortChars rest
    else c :: stripPortChars rest

/-- JS String.replace with a string pattern: substitute the first
occurrence of pat by sub, leave the input unchanged when pat is absent. -/
def replaceFirst (pat sub : List Char) : List Char → List Char
  | [] => if pat.isEmpty then sub else []
  | c :: rest =>
    if pat.isPrefixOf (c :: rest) then sub ++ (c :: rest).drop pat.length
    else c :: replaceFirst pat sub rest

/-- Whether the port pattern (colon, digits, then a path separator)
occurs anywhere in the character list. -/
def hasPortTok : List Char → Bool
  | [] => false
  | c :: rest =>
    if c = ':' then
      if rest.takeWhile Char.isDigit ≠ [] ∧
          (rest.dropWhile Char.isDigit).head? = some '/' then true
      else hasPortTok rest
    else hasPortTok rest

/-- Whether pat occurs as a contiguous run of the character list. -/
def containsPat (pat : List Char) : List Char → Bool
  | [] => pat.isEmpty
  | c :: rest => pat.isPrefixOf (c :: rest) || containsPat pat rest

/-- transformWebDAVUrl from frontend/app/config/api.ts: first strip the
leftmost port token before a path separator, then substitute the first
occurrence of the configured server base URL by the caller base URL. -/
def transformWebDAVUrl (server caller url : String) : String :=
  String.mk (replaceFirst server.toList caller.toList
    (stripPortChars url.toList))

/-- Default ioBaseUrlServer from API_CONFIG. -/
def ioBaseUrlServer : String := "https://webdav"

/-- Default ioBaseUrlCaller from API_CONFIG. -/
def ioBaseUrlCaller : String := "https://localhost:8443"

/-- The translator with the repository's default configuration. -/
def transformDefault (url : String) : String :=
  transformWebDAVUrl ioBaseUrlServer ioBaseUrlCaller url

/-! ## Static gallery reconciler (static/gallery.js) -/

/-- A rendered impression: the anchor or figure element produced by
_fetchImpression for one file key. The nodeId is the DOM node identity,
used to tell reuse of an existing node from creation of a fresh one; src
is the thumbnail URL assigned to the img element at creation. -/
structure Impression where
  key : String
  nodeId : Nat
  src : String
  deriving DecidableEq

/-- Thumbnail URL assigned by _fetchImpression:
window.location.href + "thumbnail/" + file_key. -/
def thumbnailSrc (base k : String) : String := base ++ "thumbnail/" ++ k

/-- _renderImpression from static/gallery.js: look the key up by element
id in the current document; reuse the existing node when present (no new
node, no new image fetch), otherwise build a fresh node whose img src
triggers one thumbnail fetch. Returns the node, the next fresh node
identity, and the list of image URLs newly requested. -/
def renderImpression (doc : List Impression) (fresh : Nat) (base k : String) :
    Impression × Nat × List String :=
  match doc.find? (fun imp => imp.key == k) with
  | some imp => (imp, fresh, [])
  | none => (⟨k, fresh, thumbnailSrc base k⟩, fresh + 1, [thumbnailSrc base k])

/-- refreshGallery from static/gallery.js: build a new container holding
one impression per listed key, rendering each through _renderImpression,
then swap it for the old container (so nodes of keys absent from the
listing are dropped). Returns the new container's children, the next
fresh node identity, and the concatenated fetch log. -/
def refreshGallery (doc : List Impression) (base : String) :
    List String → Nat → List Impression × Nat × List String
  | [], fresh => ([], fresh, [])
  | k :: ks, fresh =>
    let r := renderImpression doc fresh base k
    let rest := refreshGallery doc base ks r.2.1
    (r.1 :: rest.1, rest.2.1, r.2.2 ++ rest.2.2)

/-! ## React gallery thumbnail loading (frontend Gallery.tsx) -/

/-- Fields of a FileEntry consulted by the gallery and action code paths;
the remaining metadata fields (uuid, mime type, checksum, phash, tags)
do not affect the modelled control flow. -/
structure FileEntry where
  file_key : String
  thumbnail_key : Option String
  deriving DecidableEq

/-- Guard of the loadThumbnailUrls loop body: the entry is processed only
when file_key and thumbnail_key are both truthy (non-null, non-empty). -/
def thumbEligible (f : FileEntry) : Option String :=
  match f.thumbnail_key with
  | some t => if f.file_key ≠ "" ∧ t ≠ "" then some t else none
  | none => none

/-- Issuance requests posted by one run of the loadThumbnailUrls effect
in Gallery.tsx: for every displayed eligible file, one POST to the
thumbnails_urls endpoint whose body carries the singleton list of that
file's thumbnail key. The effect runs whenever a listing is delivered and
never consults previously resolved URLs. -/
def loadThumbnailRequests (displayed : List FileEntry) : List (List String) :=
  displayed.filterMap (fun f => (thumbEligible f).map (fun t => [t]))

/-! ## Action coordinator (frontend ActionBar handleAction) -/

/-- The three file actions handled by the ActionBar. -/
inductive FileAction
  | copy
  | move
  | delete
  deriving DecidableEq

/-- One request posted to the store gateway by handleAction: either the
delete endpoint with the selected file entries, or the copy endpoint with
source-to-destination mappings and the delete_source flag (true for
move). -/
inductive ApiCall
  | deleteCall (fileKeys : List String)
  | copyCall (mappings : List (String × String)) (deleteSource : Bool)
  deriving DecidableEq

/-- Observable effects of one handleAction run: the gateway requests
issued, whether onRefresh was invoked (triggering a fresh listing and
reconciliation), and whether setSelectedFiles([]) was invoked. -/
structure ActionEffects where
  calls : List ApiCall
  refreshed : Bool
  selectionCleared : Bool
  deriving DecidableEq

/-- Lookup of a selected key in the current files list, as
files.find(f => f.file_key === file). -/
def lookupEntry (files : List FileEntry) (k : String) : Option FileEntry :=
  files.find? (fun f => f.file_key == k)

/-- Resolution of every selected key to its file entry. The JS map body
throws on the first key with no matching entry, aborting the whole
handler before any network call; none models that thrown path. -/
def resolveAll (files : List FileEntry) : List String → Option (List FileEntry)
  | [] => some []
  | k :: ks =>
    match lookupEntry files k with
    | none => none
    | some f => (resolveAll files ks).map (fun fs => f :: fs)

/-- Basename step of the destination computation:
fileEntry.file_key.split("/").pop(). -/
def keyBasename (k : String) : String :=
  match (k.splitOn "/").getLast? with
  | some t => t
  | none => k

/-- handleAction from the frontend ActionBar: return immediately when no
file is selected; resolve every selected key to its entry (a missing
entry throws and is caught locally, so nothing is posted); otherwise post
exactly one gateway request — delete with the resolved entries, or copy
with mappings targetDir/basename(source) and delete_source set for move.
When the gateway reports no error, onRefresh fires and the selection is
cleared; on a reported error neither happens. gwError is the error field
of the gateway's ApiResponse. -/
def handleAction (action : FileAction) (selected : List String)
    (files : List FileEntry) (targetDir : String) (gwError : Option String) :
    ActionEffects :=
  if selected.length = 0 then ⟨[], false, false⟩
  else
    let payload : Option ApiCall :=
      match action with
      | .delete =>
        (resolveAll files selected).map
          (fun fs => .deleteCall (fs.map FileEntry.file_key))
      | .copy =>
        (resolveAll files selected).map
          (fun fs => .copyCall
            (fs.map (fun f =>
              (f.file_key, targetDir ++ "/" ++ keyBasename f.file_key)))
            false)
      | .move =>
        (resolveAll files selected).map
          (fun fs => .copyCall
            (fs.map (fun f =>
              (f.file_key, targetDir ++ "/" ++ keyBasename f.file_key)))
            true)
    match payload with
    | none => ⟨[], false, false⟩
    | some c =>
      match gwError with
      | none => ⟨[c], true, true⟩
      | some _ => ⟨[c], false, false⟩

/-! ## Capability URL helpers (frontend/app/services/api.ts) -/

/-- Body of an issuance response as the helpers consume it: base_url and
paths may each be absent (JS undefined), and paths maps file keys to
relative paths. -/
structure UrlsBody where
  base_url : Option String
  paths : Option (List (String × String))
  deriving DecidableEq

/-- Outcome of the fetch awaited by the helpers: a rejected promise
(network failure), or an HTTP response with its ok flag and, when the
body parses as JSON, the parsed body. -/
inductive FetchOutcome
  | networkFailure
  | httpResponse (ok : Bool) (body : Option UrlsBody)
  deriving DecidableEq

/-- JS string interpolation of a possibly-undefined value: an absent
value prints as the string "undefined" rather than failing. -/
def jsShow : Option String → String
  | some s => s
  | none => "undefined"

/-- Lookup data.paths[fileKey] in a present paths object. -/
def lookupPath (paths : List (String × String)) (k : String) : Option String :=
  (paths.find? (fun p => p.1 == k)).map Prod.snd

/-- getFilesUrl from api.ts: empty (or null) key returns "" before any
request; every failure inside the try block — rejected fetch, non-OK
status, unparseable body, or property access on an absent paths object —
is caught and returns ""; otherwise the helper interpolates base_url and
paths[fileKey] (either prints as "undefined" when absent, without
throwing) and returns the translated URL. -/
def getFilesUrl (server caller k : String) (outcome : FetchOutcome) : String :=
  if k = "" then ""
  else
    match outcome with
    | .networkFailure => ""
    | .httpResponse ok body =>
      if !ok then ""
      else
        match body with
        | none => ""
        | some resp =>
          match resp.paths with
          | none => ""
          | some ps =>
            transformWebDAVUrl server caller
              (jsShow resp.base_url ++ "/" ++ jsShow (lookupPath ps k))

/-- HTTPS upgrade applied by getThumbnailUrl in api.ts: return the URL
unchanged when it already starts with https, else replace the first
occurrence of the http scheme prefix. -/
def httpsUpgrade (url : String) : String :=
  if url.startsWith "https://" then url
  else String.mk (replaceFirst "http://".toList "https://".toList url.toList)

/-- getThumbnailUrl from api.ts: identical control flow to getFilesUrl
against the thumbnails_urls endpoint, with the https upgrade applied to
the translated URL before returning it. -/
def getThumbnailUrl (server caller k : String) (outcome : FetchOutcome) :
    String :=
  if k = "" then ""
  else
    match outcome with
    | .networkFailure => ""
    | .httpResponse ok body =>
      if !ok then ""
      else
        match body with
        | none => ""
        | some resp =>
          match resp.paths with
          | none => ""
          | some ps =>
            httpsUpgrade (transformWebDAVUrl server caller
              (jsShow resp.base_url ++ "/" ++ jsShow (lookupPath ps k)))

/-! ## Helper lemmas -/

theorem stripPortChars_eq_self (cs : List Char) (h : hasPortTok cs = false) :
    stripPortChars cs = cs := by
  induction cs with
  | nil => rfl
  | cons c rest ih =>
    unfold hasPortTok at h
    unfold stripPortChars
    by_cases hc : c = ':'
    · rw [if_pos hc] at h ⊢
      by_cases hp : rest.takeWhile Char.isDigit ≠ [] ∧
          (rest.dropWhile Char.isDigit).head? = some '/'
      · rw [if_pos hp] at h; cases h
      · rw [if_neg hp] at h ⊢
        rw [ih h]
    · rw [if_neg hc] at h ⊢
      rw [ih h]

theorem replaceFirst_eq_self (pat sub : List Char) (cs : List Char)
    (h : containsPat pat cs = false) : replaceFirst pat sub cs = cs := by
  induction cs with
  | nil =>
    unfold containsPat at h
    unfold replaceFirst
    rw [if_neg]
    simp [h]
  | cons c rest ih =>
    unfold containsPat at h
    unfold replaceFirst
    rcases Bool.or_eq_false_iff.mp h with ⟨h1, h2⟩
    rw [if_neg (by simp [h1]), ih h2]

theorem find?_key_self (doc : List Impression)
    (h : (doc.map Impression.key).Nodup) {imp : Impression} (hm : imp ∈ doc) :
    doc.find? (fun i => i.key == imp.key) = some imp := by
  induction doc with
  | nil => cases hm
  | cons a rest ih =>
    rcases List.mem_cons.mp hm with rfl | hm2
    · exact List.find?_cons_of_pos _ (by simp)
    · have hne : (a.key == imp.key) = false := by
        have hmem : imp.key ∈ rest.map Impression.key :=
          List.mem_map_of_mem _ hm2
        have hnot := (List.nodup_cons.mp h).1
        simp only [beq_eq_false_iff_ne, ne_eq]
        intro e
        exact hnot (e ▸ hmem)
      rw [List.find?_cons_of_neg _ (by simp [hne])]
      exact ih (List.nodup_cons.mp h).2 hm2

theorem refreshGallery_of_find (doc : List Impression) (base : String)
    (fresh : Nat) (l : List Impression)
    (hl : ∀ imp ∈ l, doc.find? (fun i => i.key == imp.key) = some imp) :
    refreshGallery doc base (l.map Impression.key) fresh = (l, fresh, []) := by
  induction l with
  | nil => rfl
  | cons a rest ih =>
    have ha := hl a (by simp)
    have hrest := ih (fun imp hm => hl imp (by simp [hm]))
    show refreshGallery doc base (a.key :: rest.map Impression.key) fresh = _
    unfold refreshGallery renderImpression
    rw [ha]
    simp [hrest]

theorem refreshGallery_map_key (doc : List Impression) (base : String)
    (keys : List String) (fresh : Nat) :
    ((refreshGallery doc base keys fresh).1).map Impression.key = keys := by
  induction keys generalizing fresh with
  | nil => rfl
  | cons k ks ih =>
    unfold refreshGallery renderImpression
    cases hfind : doc.find? (fun i => i.key == k) with
    | none => simp [ih]
    | some imp =>
      have hk : imp.key = k := by
        have := List.find?_some hfind
        simpa using this
      simp [ih, hk]

/-! ## Claim theorems -/

/-- Claim C1: for every capability request (GET or HEAD) on the protected
readonly location, verification distinguishes exactly three outcomes from
the presented signature, presented expiry and server time: a signature
that does not equal the digest of expiry and resource path — which covers
the empty signature and a signature tampered in any byte — yields the
Invalid outcome with status 403, never Expired; a matching signature with
now at or past the expiry yields Expired with status 410; a matching,
unexpired signature is served. -/
theorem capability_verification_trichotomy (mac : Mac) (m : HttpMethod)
    (hm : m = .get ∨ m = .head) (sig : String) (expires now : Nat)
    (uri : String) :
    (sig ≠ mac (secureLinkMessage expires uri) →
      readonlyLocationDocker mac m sig expires now uri = .forbidden ∧
      statusCode (readonlyLocationDocker mac m sig expires now uri) = 403) ∧
    (sig = mac (secureLinkMessage expires uri) → expires ≤ now →
      readonlyLocationDocker mac m sig expires now uri = .gone ∧
      statusCode (readonlyLocationDocker mac m sig expires now uri) = 410) ∧
    (sig = mac (secureLinkMessage expires uri) → now < expires →
      readonlyLocationDocker mac m sig expires now uri = .served) := by
  refine ⟨?_, ?_, ?_⟩
  · intro h
    have hv : secureLinkVar mac sig expires now uri = "" := by
      simp [secureLinkVar, h]
    simp [readonlyLocationDocker, hv, statusCode]
  · intro h h2
    have hv : secureLinkVar mac sig expires now uri = "0" := by
      simp [secureLinkVar, h, h2]
    simp [readonlyLocationDocker, hv, statusCode]
  · intro h h2
    have hv : secureLinkVar mac sig expires now uri = "1" := by
      simp [secureLinkVar, h, Nat.not_le.mpr h2]
    rcases hm with rfl | rfl <;> simp [readonlyLocationDocker, hv]

/-- Witness for C1: with a concrete digest function, a valid unexpired
capability for "/a" is served, applying the trichotomy at GET. -/
theorem capability_verification_trichotomy_witness :
    readonlyLocationDocker (fun s => String.append "m" s) .get
      (String.append "m" (secureLinkMessage 5 "/a")) 5 3 "/a" = .served :=
  (capability_verification_trichotomy (fun s => String.append "m" s) .get
    (Or.inl rfl) (String.append "m" (secureLinkMessage 5 "/a")) 5 3
    "/a").2.2 rfl (by decide)

/-- Claim C2: every HTTP method other than GET and HEAD sent to a
capability-protected readonly path is rejected, whatever the presented
signature and expiry: in nginx_docker.conf limit_except GET HEAD denies
it even when the capability is valid, and in mac_nginx.conf limit_except
GET does; a capability never authorizes a write. -/
theorem capability_write_methods_rejected (mac : Mac) (m : HttpMethod)
    (hm : m ≠ .get ∧ m ≠ .head) (sig : String) (expires now : Nat)
    (uri : String) :
    readonlyLocationDocker mac m sig expires now uri ≠ .served ∧
    readonlyLocationMac m ≠ .served := by
  obtain ⟨hg, hh⟩ := hm
  constructor
  · unfold readonlyLocationDocker
    cases m <;> first
      | exact absurd rfl hg
      | exact absurd rfl hh
      | (simp only []; split_ifs <;> simp)
  · unfold readonlyLocationMac
    cases m <;> first
      | exact absurd rfl hg
      | exact absurd rfl hh
      | simp

/-- Witness for C2: a PUT with a valid, unexpired capability is still
rejected by both deployments. -/
theorem capability_write_methods_rejected_witness :
    readonlyLocationDocker (fun s => String.append "m" s) .put
      (String.append "m" (secureLinkMessage 5 "/a")) 5 3 "/a" ≠ .served ∧
    readonlyLocationMac .put ≠ .served :=
  capability_write_methods_rejected (fun s => String.append "m" s) .put
    ⟨by decide, by decide⟩ (String.append "m" (secureLinkMessage 5 "/a"))
    5 3 "/a"

/-- Counterexample for C3: with the repository's default configuration the
translator is not idempotent. The caller base URL https://localhost:8443
ends in a port before the path separator, so a second application strips
it: translate("https://webdav/x") is "https://localhost:8443/x" while a
further translate gives "https://localhost/x". -/
theorem transform_not_idempotent_cex :
    transformDefault (transformDefault "https://webdav/x") ≠
      transformDefault "https://webdav/x" := by decide

/-- Claim C3 as amended: the translator is a pure function that removes
the leftmost port token before a path separator and then substitutes the
first occurrence of the internal-host prefix; it is idempotent on every
input whose translation contains neither a remaining port token before a
path separator nor the internal-host prefix — but not on every input,
because the default external-host prefix re-introduces a port. -/
theorem transform_idempotent_of_stable (server caller u : String)
    (h1 : hasPortTok (transformWebDAVUrl server caller u).toList = false)
    (h2 : containsPat server.toList
      (transformWebDAVUrl server caller u).toList = false) :
    transformWebDAVUrl server caller (transformWebDAVUrl server caller u) =
      transformWebDAVUrl server caller u := by
  show String.mk (replaceFirst server.toList caller.toList
    (stripPortChars (transformWebDAVUrl server caller u).toList)) = _
  rw [stripPortChars_eq_self _ h1, replaceFirst_eq_self _ _ _ h2]
  exact rfl

/-- Witness for C3: a URL outside the internal host is left alone by the
translator, and a second application changes nothing. -/
theorem transform_idempotent_of_stable_witness :
    transformWebDAVUrl ioBaseUrlServer ioBaseUrlCaller
        (transformWebDAVUrl ioBaseUrlServer ioBaseUrlCaller "http://a/b") =
      transformWebDAVUrl ioBaseUrlServer ioBaseUrlCaller "http://a/b" :=
  transform_idempotent_of_stable ioBaseUrlServer ioBaseUrlCaller "http://a/b"
    (by decide) (by decide)

/-- Counterexample for C4: the React gallery does not satisfy the
zero-refetch property. Its loadThumbnailUrls effect reruns whenever a
listing is delivered and never consults already-resolved URLs, so
reconciling the one-entry state against the identical listing issues one
new capability-URL request instead of zero. -/
theorem react_refetch_on_identical_listing_cex :
    loadThumbnailRequests [⟨"a.jpg", some "th/a"⟩] = [["th/a"]] ∧
    ([["th/a"]] : List (List String)) ≠ [] := by decide

/-- Claim C4 as amended: in the static gallery reconciler, reconciling a
state against the listing of exactly its own keys reuses every rendered
node identically, consumes no fresh node identity and performs zero
thumbnail-URL fetches; the React gallery, by contrast, re-requests a
capability URL for every displayed eligible file on each delivered
listing, identical or not. -/
theorem reconcile_unchanged_listing (doc : List Impression) (base : String)
    (fresh : Nat) (h : (doc.map Impression.key).Nodup) :
    refreshGallery doc base (doc.map Impression.key) fresh =
      (doc, fresh, []) :=
  refreshGallery_of_find doc base fresh doc
    (fun _ hm => find?_key_self doc h hm)

/-- Witness for C4: a one-node gallery reconciled against its own key
keeps the node, the fresh counter and an empty fetch log. -/
theorem reconcile_unchanged_listing_witness :
    refreshGallery [⟨"a", 0, "u"⟩] "B" ["a"] 7 = ([⟨"a", 0, "u"⟩], 7, []) :=
  reconcile_unchanged_listing [⟨"a", 0, "u"⟩] "B" 7 (by decide)

/-- Counterexample for C5: two added keys produce two network requests,
each carrying exactly one thumbnail key — one request per key, not a
bounded batch covering all added keys. -/
theorem thumbnails_requested_per_key_cex :
    loadThumbnailRequests [⟨"a", some "ta"⟩, ⟨"b", some "tb"⟩] =
      [["ta"], ["tb"]] ∧
    (loadThumbnailRequests [⟨"a", some "ta"⟩, ⟨"b", some "tb"⟩]).length
      = 2 := by decide

/-- Claim C5 as amended: the capability-backed URLs for added keys are
requested one network call per eligible key, each call a singleton batch
through the list-typed issuance endpoint, so the number of requests
equals the number of eligible added keys rather than a bounded count. -/
theorem thumbnail_requests_one_per_key (displayed : List FileEntry) :
    loadThumbnailRequests displayed =
      (displayed.filterMap thumbEligible).map (fun t => [t]) ∧
    (loadThumbnailRequests displayed).length =
      (displayed.filterMap thumbEligible).length := by
  have h1 : loadThumbnailRequests displayed =
      (displayed.filterMap thumbEligible).map (fun t => [t]) := by
    unfold loadThumbnailRequests
    rw [List.map_filterMap]
  exact ⟨h1, by rw [h1, List.length_map]⟩

/-- Claim C6: after a reconciliation pass over a duplicate-free listing,
the gallery holds exactly one live rendered node for each listed key, so
every key newly present in the listing has been added, and zero nodes for
any key absent from the listing, so every key no longer listed has been
removed. -/
theorem reconcile_gallery_invariant (doc : List Impression) (base : String)
    (keys : List String) (fresh : Nat) (h : keys.Nodup) :
    (∀ k, k ∈ keys →
      (((refreshGallery doc base keys fresh).1).filter
        (fun imp => imp.key == k)).length = 1) ∧
    (∀ k, k ∉ keys →
      (((refreshGallery doc base keys fresh).1).filter
        (fun imp => imp.key == k)).length = 0) := by
  have hkeys := refreshGallery_map_key doc base keys fresh
  have hcount : ∀ k : String,
      (((refreshGallery doc base keys fresh).1).filter
        (fun imp => imp.key == k)).length = keys.count k := by
    intro k
    calc (((refreshGallery doc base keys fresh).1).filter
          (fun imp => imp.key == k)).length
        = ((refreshGallery doc base keys fresh).1).countP
            (fun imp => imp.key == k) :=
          (List.countP_eq_length_filter _ _).symm
      _ = (((refreshGallery doc base keys fresh).1).map
            Impression.key).countP (fun s => s == k) :=
          (List.countP_map (fun s => s == k) Impression.key
            ((refreshGallery doc base keys fresh).1)).symm
      _ = keys.countP (fun s => s == k) := by rw [hkeys]
      _ = keys.count k := rfl
  refine ⟨fun k hk => ?_, fun k hk => ?_⟩
  · rw [hcount]
    exact List.count_eq_one_of_mem h hk
  · rw [hcount]
    exact List.count_eq_zero.mpr hk

/-- Witness for C6: reconciling an empty gallery against the listing a, b
yields one node for a and none for the unlisted c. -/
theorem reconcile_gallery_invariant_witness :
    (((refreshGallery [] "B" ["a", "b"] 0).1).filter
      (fun imp => imp.key == "a")).length = 1 ∧
    (((refreshGallery [] "B" ["a", "b"] 0).1).filter
      (fun imp => imp.key == "c")).length = 0 :=
  ⟨(reconcile_gallery_invariant [] "B" ["a", "b"] 0 (by decide)).1 "a"
      (by decide),
   (reconcile_gallery_invariant [] "B" ["a", "b"] 0 (by decide)).2 "c"
      (by decide)⟩

/-- Claim C7: reconciling from an empty gallery against a listing renders
exactly one node per listed key — as many nodes as the listing has keys,
in listing order — and reconciling any gallery against an empty listing
removes every node, leaving zero rendered nodes and fetching nothing. -/
theorem reconcile_empty_cases (doc : List Impression) (base : String)
    (keys : List String) (fresh : Nat) :
    ((refreshGallery [] base keys fresh).1).length = keys.length ∧
    ((refreshGallery [] base keys fresh).1).map Impression.key = keys ∧
    refreshGallery doc base [] fresh = ([], fresh, []) := by
  refine ⟨?_, refreshGallery_map_key [] base keys fresh, rfl⟩
  conv_rhs => rw [← refreshGallery_map_key [] base keys fresh]
  exact (List.length_map _ _).symm

/-- Counterexample for C8: a request with the non-empty source list a,
against a listing holding no matching entry, is not delegated — the entry
lookup throws before any network call, so the gateway receives nothing,
refuting that every non-empty request passes validation and is
delegated. -/
theorem nonempty_sources_not_delegated_cex :
    (["a"] : List String) ≠ [] ∧
    (handleAction .delete ["a"] [] "" none).calls = [] := by decide

/-- Claim C8 as amended: a file-action request with an empty sources list
is dropped locally by the early-return guard, with no network roundtrip;
a request with non-empty sources is delegated as exactly one gateway call
when every source key resolves to an entry of the current listing, while
a request holding an unresolvable key aborts locally, again with no
roundtrip. -/
theorem handleAction_validation (action : FileAction) (selected : List String)
    (files : List FileEntry) (targetDir : String) (gwError : Option String) :
    (selected = [] →
      handleAction action selected files targetDir gwError =
        ⟨[], false, false⟩) ∧
    (resolveAll files selected = none →
      (handleAction action selected files targetDir gwError).calls = []) ∧
    (∀ fs, resolveAll files selected = some fs → selected ≠ [] →
      (handleAction action selected files targetDir gwError).calls.length
        = 1) := by
  refine ⟨?_, ?_, ?_⟩
  · intro h
    subst h
    rfl
  · intro h
    by_cases hs : selected.length = 0
    · unfold handleAction
      rw [if_pos hs]
    · cases action <;> cases gwError <;> simp [handleAction, hs, h]
  · intro fs h hne
    have hs : ¬selected.length = 0 := by
      simpa [List.length_eq_zero] using hne
    cases action <;> cases gwError <;> simp [handleAction, hs, h]

/-- Witness for C8: one resolvable selected key produces exactly one
gateway call. -/
theorem handleAction_validation_witness :
    (handleAction .delete ["a"] [⟨"a", none⟩] "" none).calls.length = 1 :=
  (handleAction_validation .delete ["a"] [⟨"a", none⟩] "" none).2.2
    [⟨"a", none⟩] (by decide) (by decide)

/-- Claim C9: for a submitted copy, move or delete action that reaches
the gateway, a success report clears the selection and triggers the
refresh that reconciles against a fresh listing, while a reported failure
leaves the selection untouched — neither clearing nor refresh happens, so
the user can retry without re-selecting. -/
theorem action_outcome_effects (action : FileAction) (selected : List String)
    (files : List FileEntry) (targetDir : String) (hne : selected ≠ [])
    (fs : List FileEntry) (hres : resolveAll files selected = some fs) :
    ((handleAction action selected files targetDir none).refreshed = true ∧
     (handleAction action selected files targetDir none).selectionCleared
        = true) ∧
    (∀ e,
      (handleAction action selected files targetDir (some e)).refreshed
          = false ∧
      (handleAction action selected files targetDir
          (some e)).selectionCleared = false) := by
  have hs : ¬selected.length = 0 := by
    simpa [List.length_eq_zero] using hne
  constructor
  · cases action <;> simp [handleAction, hs, hres]
  · intro e
    cases action <;> simp [handleAction, hs, hres]

/-- Witness for C9: deleting the resolvable key a clears the selection
and refreshes on success, and does neither on a reported failure. -/
theorem action_outcome_effects_witness :
    ((handleAction .delete ["a"] [⟨"a", none⟩] "" none).refreshed = true ∧
     (handleAction .delete ["a"] [⟨"a", none⟩] "" none).selectionCleared
        = true) ∧
    ((handleAction .delete ["a"] [⟨"a", none⟩] ""
        (some "boom")).refreshed = false ∧
     (handleAction .delete ["a"] [⟨"a", none⟩] ""
        (some "boom")).selectionCleared = false) :=
  ⟨(action_outcome_effects .delete ["a"] [⟨"a", none⟩] "" (by decide)
      [⟨"a", none⟩] (by decide)).1,
   (action_outcome_effects .delete ["a"] [⟨"a", none⟩] "" (by decide)
      [⟨"a", none⟩] (by decide)).2 "boom"⟩

/-- Counterexample for C10: a parsed, OK response whose paths object
lacks the requested key makes the helper interpolate the JS undefined
value instead of failing, so it returns a non-empty URL even though no
path was issued for the key — refuting that a non-empty return happens
only when issuance succeeded. -/
theorem url_helper_nonempty_without_issued_path_cex :
    getFilesUrl "https://webdav" "https://localhost:8443" "k"
      (.httpResponse true (some ⟨some "https://webdav", some []⟩)) =
      "https://localhost:8443/undefined" ∧
    ("https://localhost:8443/undefined" : String) ≠ "" := by decide

/-- Claim C10 as amended: the capability URL helpers never throw to their
caller and return the empty string for an empty or null key, a rejected
fetch, a non-OK HTTP status, an unparseable body, or a body without a
paths object; but when an OK body parses with a paths object that lacks
the requested key, JS property interpolation yields the text "undefined"
and the helper returns a non-empty URL, so a non-empty result does not
imply successful issuance for that key. -/
theorem url_helpers_error_cases (server caller k : String)
    (outcome : FetchOutcome) :
    (k = "" → getFilesUrl server caller k outcome = "" ∧
      getThumbnailUrl server caller k outcome = "") ∧
    (getFilesUrl server caller k .networkFailure = "" ∧
      getThumbnailUrl server caller k .networkFailure = "") ∧
    (∀ body, getFilesUrl server caller k (.httpResponse false body) = "" ∧
      getThumbnailUrl server caller k (.httpResponse false body) = "") ∧
    (getFilesUrl server caller k (.httpResponse true none) = "" ∧
      getThumbnailUrl server caller k (.httpResponse true none) = "") ∧
    (∀ bu, getFilesUrl server caller k
        (.httpResponse true (some ⟨bu, none⟩)) = "" ∧
      getThumbnailUrl server caller k
        (.httpResponse true (some ⟨bu, none⟩)) = "") := by
  refine ⟨?_, ?_, ?_, ?_, ?_⟩
  · intro hk
    subst hk
    exact ⟨rfl, rfl⟩
  · by_cases hk : k = "" <;> simp [getFilesUrl, getThumbnailUrl, hk]
  · intro body
    by_cases hk : k = "" <;> simp [getFilesUrl, getThumbnailUrl, hk]
  · by_cases hk : k = "" <;> simp [getFilesUrl, getThumbnailUrl, hk]
  · intro bu
    by_cases hk : k = "" <;> simp [getFilesUrl, getThumbnailUrl, hk]

/-- Witness for C10: both helpers return the empty string for the empty
key on a failed fetch. -/
theorem url_helpers_error_cases_witness :
    getFilesUrl "s" "c" "" .networkFailure = "" ∧
    getThumbnailUrl "s" "c" "" .networkFailure = "" :=
  (url_helpers_error_cases "s" "c" "" .networkFailure).1 rfl

end Libression
